import Mathlib

/-!
Verification development for the RackNerd exporter (`racknerd_exporter.py`).

The Python program is shallowly embedded in Lean:
* strings stay `String` (manipulated through their character lists);
* Python `float` values become `ℚ` — every value that actually flows through
  the program is a finite decimal scaled by a power of 1024 or 10, so
  rationals model the reference equations exactly;
* fallible Python operations (`float(...)`, `int(...)`) become
  `Option`-returning functions, `none` standing for a raised `ValueError`;
* code whose uncaught exceptions abort a whole snapshot is threaded through
  `Except Unit`;
* the network is an explicit trace of responses consumed in request order.

Rational values are built with `mkRat` (numerator/denominator computed in
integer arithmetic) so that every definition evaluates by kernel reduction;
`ratScale_eq_mul` bridges to ordinary `ℚ` multiplication.
-/

namespace RackNerd

/-- Value of a list of decimal digit characters, most significant first. -/
def digitsVal (ds : List Char) : Nat :=
  ds.foldl (fun a c => a * 10 + (c.toNat - 48)) 0

/-- Substring test: does `hay` contain `needle` as a contiguous run?
Models Python's `needle in hay`. -/
def hasSub (needle : List Char) : List Char → Bool
  | [] => needle.isEmpty
  | c :: t => needle.isPrefixOf (c :: t) || hasSub needle t

/-- Python `in` on strings: `strContains hay needle` is `needle in hay`. -/
def strContains (hay needle : String) : Bool :=
  hasSub needle.toList hay.toList

/-- Python `str.strip()` on a character list: drop whitespace from both ends. -/
def pyStripList (cs : List Char) : List Char :=
  ((cs.dropWhile Char.isWhitespace).reverse.dropWhile Char.isWhitespace).reverse

/-- Python `str.strip()`. -/
def pyStrip (s : String) : String :=
  String.mk (pyStripList s.toList)

/-- Embedding of Python's `int(s)` on a string argument: strip whitespace,
optional sign, then at least one decimal digit; anything else raises
(`none`).  Mirrors the `int(state_value)` call at line 397 of the source. -/
def pyInt (s : String) : Option Int :=
  let cs := pyStripList s.toList
  match cs with
  | '+' :: rest =>
      if rest ≠ [] ∧ rest.all Char.isDigit then some (digitsVal rest) else none
  | '-' :: rest =>
      if rest ≠ [] ∧ rest.all Char.isDigit then some (-(digitsVal rest : Int)) else none
  | _ =>
      if cs ≠ [] ∧ cs.all Char.isDigit then some (digitsVal cs) else none

/-- Embedding of Python's `float(s)` on the string inputs this program feeds
it: strip whitespace, optional sign, a mantissa `digits[.digits]` holding at
least one digit, optional exponent `e|E[+|-]digits`; anything else raises
(`none`).  The exact decimal value `±(ip.fp) * 10^(±e)` is returned as a
rational via `mkRat`, with the mantissa read as the digit string `ip ++ fp`
over the denominator `10 ^ |fp|`.  (The special spellings `inf`/`nan` never
reach `float` in this program's honest inputs and are outside the model.) -/
def pyFloat (s : String) : Option ℚ :=
  let cs := pyStripList s.toList
  let signAndRest : Bool × List Char :=
    match cs with
    | '+' :: t => (false, t)
    | '-' :: t => (true, t)
    | _ => (false, cs)
  let neg := signAndRest.1
  let cs1 := signAndRest.2
  let ip := cs1.takeWhile Char.isDigit
  let cs2 := cs1.drop ip.length
  let fpAndRest : List Char × List Char :=
    match cs2 with
    | '.' :: t => (t.takeWhile Char.isDigit, t.drop (t.takeWhile Char.isDigit).length)
    | _ => ([], cs2)
  let fp := fpAndRest.1
  let cs3 := fpAndRest.2
  if ip.isEmpty && fp.isEmpty then none
  else
    let mantNum : Int := digitsVal (ip ++ fp)
    let mantNum := if neg then -mantNum else mantNum
    let mantDen : Nat := 10 ^ fp.length
    match cs3 with
    | [] => some (mkRat mantNum mantDen)
    | e :: t =>
      if e = 'e' ∨ e = 'E' then
        let esignAndRest : Bool × List Char :=
          match t with
          | '+' :: u => (true, u)
          | '-' :: u => (false, u)
          | _ => (true, t)
        let ed := esignAndRest.2.takeWhile Char.isDigit
        if ed.isEmpty || !(esignAndRest.2.drop ed.length).isEmpty then none
        else
          let ev : Nat := 10 ^ digitsVal ed
          if esignAndRest.1 then some (mkRat (mantNum * ev) mantDen)
          else some (mkRat mantNum (mantDen * ev))
      else none

/-- Exact scaling of a rational by a natural number, written so that it
evaluates by kernel reduction; equal to ordinary multiplication by
`ratScale_eq_mul`. -/
def ratScale (v : ℚ) (m : Nat) : ℚ :=
  mkRat (v.num * m) v.den

theorem ratScale_eq_mul (v : ℚ) (m : Nat) : ratScale v m = v * (m : ℚ) := by
  rw [ratScale, Rat.mkRat_eq_div]
  push_cast
  rw [mul_comm (v.num : ℚ) (m : ℚ), mul_div_assoc, Rat.num_div_den, mul_comm]

/-- The unit group of the regex `([\d.]+)\s*(GB|MB|TB|KB)?`: an optional,
case-insensitive two-letter unit right after the skipped whitespace.  The
regex has no end anchor, so trailing characters after the unit are ignored,
and a failed unit match just leaves the group empty (`none`). -/
def sizeUnit (cs : List Char) : Option String :=
  match cs with
  | a :: b :: _ =>
    let u := String.mk [a.toUpper, b.toUpper]
    if u = "GB" ∨ u = "MB" ∨ u = "TB" ∨ u = "KB" then some u else none
  | _ => none

/-- The `multipliers` dict of `parse_size`, including the `.get(unit, 1024 ** 3)`
default, as a natural number of bytes per unit. -/
def sizeMultiplier (u : String) : Nat :=
  if u = "KB" then 1024
  else if u = "MB" then 1024 ^ 2
  else if u = "GB" then 1024 ^ 3
  else if u = "TB" then 1024 ^ 4
  else 1024 ^ 3

/-- Embedding of `RackNerdCollector.parse_size` (source lines 250-270).
`none` models an uncaught exception escaping `parse_size` (the
`float(match.group(1))` call is the only fallible step).  The regex
`([\d.]+)\s*(GB|MB|TB|KB)?` is anchored at the start only; its first group is
the maximal run of digits and dots (no backtracking is possible because the
unit alternatives start with letters, which `[\d.]` and `\s` never match). -/
def parse_size (s : String) : Option ℚ :=
  if s = "" ∨ s = "null" then some 0
  else
    let cs := pyStripList s.toList
    let num := cs.takeWhile (fun c => c.isDigit || c = '.')
    if num.isEmpty then some 0
    else
      let rest := (cs.drop num.length).dropWhile Char.isWhitespace
      let unit := (sizeUnit rest).getD ("GB")
      match pyFloat (String.mk num) with
      | none => none
      | some v => some (ratScale v (sizeMultiplier unit))

/-- Sixteen casings of the four units, paired with their byte multipliers. -/
def unitCasings : List (String × Nat) :=
  [("kb", 1024), ("kB", 1024), ("Kb", 1024), ("KB", 1024),
   ("mb", 1024 ^ 2), ("mB", 1024 ^ 2), ("Mb", 1024 ^ 2), ("MB", 1024 ^ 2),
   ("gb", 1024 ^ 3), ("gB", 1024 ^ 3), ("Gb", 1024 ^ 3), ("GB", 1024 ^ 3),
   ("tb", 1024 ^ 4), ("tB", 1024 ^ 4), ("Tb", 1024 ^ 4), ("TB", 1024 ^ 4)]

/-! ## Inventory table parsing (`RackNerdClient.get_vms`, lines 174-210) -/

/-- An `<a>` element as the parser uses it: its `href` attribute (already
defaulted to `""` by `link.get('href', '')` when absent) and its text. -/
structure Link where
  href : String
  text : String
  deriving DecidableEq

/-- A `<td>` cell: `html` is `str(cell)` (used for the `'kvm.png' in
str(cells[0])` test), `text` is `cell.text`, and `link` is the first `<a>`
inside the cell (`cell.find('a')`), if any. -/
structure Cell where
  html : String
  text : String
  link : Option Link
  deriving DecidableEq

/-- A `<tr>` row of the `vmlist` table body: its list of `<td>` cells. -/
structure Row where
  cells : List Cell
  deriving DecidableEq

/-- The dict appended to `vms` for each well-formed row. -/
structure VMSummary where
  vm_id : String
  hostname : String
  vm_type : String
  ip_address : String
  os : String
  memory : String
  disk : String
  deriving DecidableEq

/-- Embedding of `re.search(r'\?_v=([^&]+)', href)`: scan left to right; the
first position where `?_v=` is followed by at least one character other than
`&` yields the maximal run of non-`&` characters; otherwise the search moves
one character forward, and yields `None` if no position matches. -/
def findVmId : List Char → Option String
  | [] => none
  | c :: rest =>
    if ['?', '_', 'v', '='].isPrefixOf (c :: rest) then
      let tok := ((c :: rest).drop 4).takeWhile (fun ch => ch ≠ '&')
      if tok.isEmpty then findVmId rest else some (String.mk tok)
    else findVmId rest

/-- The body of the `for row in tbody.find_all('tr')` loop for one row
(lines 175-207): `continue` on fewer than 6 cells, on a second cell without
an `<a>`, and on an `href` without a `?_v=` id; otherwise the appended
`VMSummary`. -/
def parseRow (r : Row) : Option VMSummary :=
  match r.cells with
  | c0 :: c1 :: c2 :: c3 :: c4 :: c5 :: _ =>
    match c1.link with
    | none => none
    | some link =>
      match findVmId link.href.toList with
      | none => none
      | some vid =>
        some { vm_id := vid
               hostname := pyStrip link.text
               vm_type := if strContains c0.html ("kvm.png") then "kvm" else "openvz"
               ip_address := pyStrip c2.text
               os := pyStrip c3.text
               memory := pyStrip c4.text
               disk := pyStrip c5.text }
  | _ => none

/-- The whole loop: `vms = []` followed by one `vms.append(...)` per
well-formed row, in row order. -/
def parseVMTable (rows : List Row) : List VMSummary :=
  rows.foldl (fun acc r =>
    match parseRow r with
    | none => acc
    | some v => acc ++ [v]) []

/-- Malformedness of an inventory row in the words of the claim: fewer than
6 cells, or a second cell with no link element, or a link whose `href`
carries no VM-id query parameter. -/
def rowMalformed (r : Row) : Bool :=
  r.cells.length < 6 ||
  (match r.cells.get? 1 with
   | none => true
   | some c =>
     match c.link with
     | none => true
     | some link => (findVmId link.href.toList).isNone)

/-! ## Per-VM stats and the `collect` loop (`RackNerdCollector.collect`,
lines 272-449)

`get_vm_stats` returns either a parsed JSON dict (`success == '1'`) or
`None`; the collector only looks at the string-valued fields below, each of
which may be absent from the dict.  A scrape's stats fetches are therefore
modelled by a function from VM id to `Option Stats`: the value
`self.client.get_vm_stats(vm_id)` returned for each VM. -/

/-- The string-valued fields of the stats JSON dict that `collect` reads,
`none` meaning the key is absent. -/
structure Stats where
  state : Option String := none
  totalbw : Option String := none
  usedbw : Option String := none
  percentbw : Option String := none
  totalhdd : Option String := none
  usedhdd : Option String := none
  percenthdd : Option String := none
  totalmem : Option String := none
  usedmem : Option String := none
  percentmem : Option String := none
  totalvswap : Option String := none
  usedvswap : Option String := none
  percentvswap : Option String := none
  deriving DecidableEq

/-- What `collect` appends to the metric families for one VM: the
`racknerd_vm_info` labels, the `racknerd_vm_stats_available` value, the
`racknerd_vm_state` value, and for each resource the
(`*_total_bytes`, `*_used_bytes`, `*_usage_percent`) triple — `none` when no
sample is appended to those three families for this VM. -/
structure Entry where
  hostname : String
  ip_address : String
  os : String
  vm_type : String
  available : Bool
  state : Int
  bw : Option (ℚ × ℚ × ℚ)
  disk : Option (ℚ × ℚ × ℚ)
  mem : Option (ℚ × ℚ × ℚ)
  vswap : Option (ℚ × ℚ × ℚ)
  deriving DecidableEq

deriving instance DecidableEq for Except

/-- Lift a fallible Python expression to the exception monad of the scrape:
`none` (a raised `ValueError`) aborts the whole `collect` generator. -/
def toExc (o : Option ℚ) : Except Unit ℚ :=
  match o with
  | some q => Except.ok q
  | none => Except.error ()

/-- One resource block of `collect` guarded by `if stats.get(key):` (lines
405-414): when the total field is present and non-empty, parse total and
used with `parse_size` and the percent with a bare `float(...)`; any of the
three may raise. -/
def tripleOf (total used percent : Option String) : Except Unit (Option (ℚ × ℚ × ℚ)) :=
  match total with
  | none => Except.ok none
  | some t =>
    if t = "" then Except.ok none
    else do
      let tv ← toExc (parse_size t)
      let uv ← toExc (parse_size (used.getD ("0")))
      let pv ← toExc (pyFloat (percent.getD ("0")))
      Except.ok (some (tv, uv, pv))

/-- Memory/vswap blocks add the `not in ['null', None]` guard
(lines 417-426). -/
def tripleOfMem (total used percent : Option String) : Except Unit (Option (ℚ × ℚ × ℚ)) :=
  match total with
  | none => Except.ok none
  | some t =>
    if t = "" ∨ t = "null" then Except.ok none
    else do
      let tv ← toExc (parse_size t)
      let uv ← toExc (parse_size (used.getD ("0")))
      let pv ← toExc (pyFloat (percent.getD ("0")))
      Except.ok (some (tv, uv, pv))

/-- The body of the `for vm in vms` loop of `collect` for one VM (lines
377-432): `vm_info` always gets a sample; with stats, the state is
`int(stats.get('state', '0'))` guarded by `try/except` defaulting to 0 and
each resource block runs; without stats, only `stats_available = 0` and
`state = 0` are emitted, and no resource family gets a sample. -/
def entryOf (vm : VMSummary) (stats : Option Stats) : Except Unit Entry :=
  match stats with
  | some s => do
    let state := (pyInt (s.state.getD ("0"))).getD 0
    let bw ← tripleOf s.totalbw s.usedbw s.percentbw
    let disk ← tripleOf s.totalhdd s.usedhdd s.percenthdd
    let mem ← tripleOfMem s.totalmem s.usedmem s.percentmem
    let vswap ← tripleOfMem s.totalvswap s.usedvswap s.percentvswap
    Except.ok { hostname := vm.hostname, ip_address := vm.ip_address, os := vm.os
                vm_type := vm.vm_type, available := true, state := state
                bw := bw, disk := disk, mem := mem, vswap := vswap }
  | none =>
    Except.ok { hostname := vm.hostname, ip_address := vm.ip_address, os := vm.os
                vm_type := vm.vm_type, available := false, state := 0
                bw := none, disk := none, mem := none, vswap := none }

/-- The `collect` loop over the VM list: one entry per VM in order, each
computed from that VM's own stats fetch; an uncaught exception from any VM
aborts the whole snapshot. -/
def collectEntries (vms : List VMSummary) (env : String → Option Stats) :
    Except Unit (List Entry) :=
  match vms with
  | [] => Except.ok []
  | vm :: rest =>
    match entryOf vm (env vm.vm_id) with
    | Except.error e0 => Except.error e0
    | Except.ok e =>
      match collectEntries rest env with
      | Except.error e0 => Except.error e0
      | Except.ok es => Except.ok (e :: es)

/-! ## Session client (`RackNerdClient`, lines 27-214)

The network is modelled as an explicit trace of responses, consumed one per
request in program order.  The client state is the `_logged_in` flag plus
the not-yet-consumed trace.  A missing or ill-typed response stands for a
raised `requests` exception. -/

/-- A JSON scalar as `response.json()` can deliver it for the `status`
field: a JSON string or a JSON number.  Python's `==` between an `int` and a
`str` is `False`, which the embedding mirrors by the constructors being
distinct. -/
inductive JVal where
  | str (s : String)
  | num (n : Int)
  deriving DecidableEq

/-- Body of a login response: either not JSON (`response.json()` raises
`ValueError`) or a JSON object with the truthiness of its `success` field
and its `status` field (absent = `none`). -/
inductive LoginBody where
  | notJson
  | json (success : Bool) (status : Option JVal)
  deriving DecidableEq

/-- A login endpoint response: HTTP status code plus body. -/
structure LoginResp where
  httpStatus : Nat
  body : LoginBody
  deriving DecidableEq

/-- A `home.php` response as the client inspects it: HTTP status code,
whether `'logout.php'` / `'vmlist'` occur in the text, and the `vmlist`
table (`none` = no such table, `some none` = table without `tbody`,
`some (some rows)` = the tbody rows). -/
structure Page where
  status : Nat
  hasLogout : Bool
  hasVmlist : Bool
  table : Option (Option (List Row))
  deriving DecidableEq

/-- One response from the remote panel; `netError` models a raised
`requests` exception. -/
inductive Resp where
  | page (p : Page)
  | loginResp (r : LoginResp)
  | netError
  deriving DecidableEq

/-- Client state: the `_logged_in` flag and the responses the panel will
give to the next requests, in order. -/
structure ClientSt where
  loggedIn : Bool
  trace : List Resp
  deriving DecidableEq

/-- Consume the next response (an empty trace behaves as a network
exception). -/
def takeResp (st : ClientSt) : Resp × ClientSt :=
  match st.trace with
  | [] => (Resp.netError, st)
  | r :: rest => (r, { st with trace := rest })

/-- Observable outcome of `RackNerdClient.login`; each constructor is one
distinctly-logged return path of the Python function (lines 66-136). -/
inductive LoginOutcome where
  | loginSuccess
  | verificationFailed
  | unsupportedAuth
  | accountLocked
  | invalidCredentials
  | protocolError
  | successFalse
  | exceptionErr
  deriving DecidableEq

/-- The boolean the Python `login` actually returns. -/
def LoginOutcome.toBool : LoginOutcome → Bool
  | LoginOutcome.loginSuccess => true
  | _ => false

/-- Embedding of `RackNerdClient.login` (lines 66-136).  One POST to
`login.php`; on `success` truthy and `status == "1"` the flag is set and a
verification GET of `home.php` must contain `'logout.php'`.  The `status`
comparisons are Python `==` against the string literals `"1"`, `"4"`, `"2"`,
`"3"` in that order; any other value (including JSON numbers, which never
equal a `str`) falls to the unknown-status branch.  Any raised exception is
caught by the outermost handler and returns `False`. -/
def login (st : ClientSt) : LoginOutcome × ClientSt :=
  match takeResp st with
  | (Resp.loginResp r, st1) =>
    if 400 ≤ r.httpStatus then (LoginOutcome.exceptionErr, st1)
    else
      match r.body with
      | LoginBody.notJson => (LoginOutcome.protocolError, st1)
      | LoginBody.json success status =>
        if success then
          match status with
          | some (JVal.str s) =>
            if s = "1" then
              let st2 := { st1 with loggedIn := true }
              match takeResp st2 with
              | (Resp.page v, st3) =>
                if v.hasLogout then (LoginOutcome.loginSuccess, st3)
                else (LoginOutcome.verificationFailed, st3)
              | (_, st3) => (LoginOutcome.exceptionErr, st3)
            else if s = "4" then (LoginOutcome.unsupportedAuth, st1)
            else if s = "2" then (LoginOutcome.accountLocked, st1)
            else if s = "3" then (LoginOutcome.invalidCredentials, st1)
            else (LoginOutcome.protocolError, st1)
          | _ => (LoginOutcome.protocolError, st1)
        else (LoginOutcome.successFalse, st1)
  | (_, st1) => (LoginOutcome.exceptionErr, st1)

/-- Embedding of `RackNerdClient.is_logged_in` (lines 40-55): GET
`home.php`; true only on HTTP 200 with both `'logout.php'` and `'vmlist'`
present; any exception yields false. -/
def is_logged_in (st : ClientSt) : Bool × ClientSt :=
  match takeResp st with
  | (Resp.page p, st1) =>
    if p.status = 200 then (p.hasLogout && p.hasVmlist, st1) else (false, st1)
  | (_, st1) => (false, st1)

/-- Embedding of `RackNerdClient.ensure_logged_in` (lines 57-64): if the
cached flag is set and the liveness probe passes, done; otherwise clear the
flag and call `login`, returning its boolean. -/
def ensure_logged_in (st : ClientSt) : Bool × ClientSt :=
  if st.loggedIn then
    match is_logged_in st with
    | (true, st1) => (true, st1)
    | (false, st1) =>
      let r := login { st1 with loggedIn := false }
      (r.1.toBool, r.2)
  else
    let r := login { st with loggedIn := false }
    (r.1.toBool, r.2)

/-- Embedding of `RackNerdClient.get_vms` (lines 138-214), instrumented with
the number of top-level attempts (the third component): the Python function
calls itself recursively — `return self.get_vms()  # Retry` — whenever the
fetched page lacks `'logout.php'` and `ensure_logged_in()` succeeds, so the
embedding is indexed by fuel; any actual run consumes at least two trace
entries per attempt, so fuel `≥` trace length is always enough. -/
def get_vms : Nat → ClientSt → List VMSummary × ClientSt × Nat
  | 0, st => ([], st, 0)
  | n + 1, st =>
    match ensure_logged_in st with
    | (false, st1) => ([], st1, 1)
    | (true, st1) =>
      match takeResp st1 with
      | (Resp.page p, st2) =>
        if 400 ≤ p.status then ([], st2, 1)
        else if p.hasLogout then
          match p.table with
          | none => ([], st2, 1)
          | some none => ([], st2, 1)
          | some (some rows) => (parseVMTable rows, st2, 1)
        else
          match ensure_logged_in { st2 with loggedIn := false } with
          | (true, st3) =>
            match get_vms n st3 with
            | (vms, st4, k) => (vms, st4, k + 1)
          | (false, st3) => ([], st3, 1)
      | (_, st2) => ([], st2, 1)

/-! ## Fixtures for concrete evaluations -/

/-- A login response reporting success with string status `"1"`. -/
def loginOKResp : Resp :=
  Resp.loginResp ⟨200, LoginBody.json true (some (JVal.str ("1")))⟩

/-- A login response with `success` falsy. -/
def loginFailResp : Resp :=
  Resp.loginResp ⟨200, LoginBody.json false none⟩

/-- A fully authenticated home page with an empty VM table body. -/
def pOK : Page := ⟨200, true, true, some (some [])⟩

/-- A home page carrying the `'logout.php'` marker but no VM table, as the
login-verification fetch needs it. -/
def pVerify : Page := ⟨200, true, false, none⟩

/-- A home page without the `'logout.php'` marker (a login page rendered at
the same URL). -/
def pNoMark : Page := ⟨200, false, false, none⟩

/-- A sample VM summary. -/
def vmA : VMSummary := ⟨"101", "host1", "kvm", "1.2.3.4", "linux", "1 GB", "20 GB"⟩

/-- A second sample VM summary. -/
def vmB : VMSummary := ⟨"102", "host2", "openvz", "5.6.7.8", "linux", "2 GB", "40 GB"⟩

/-- The entry `collect` produces for `vmA` when its stats fetch failed. -/
def entryOffA : Entry :=
  ⟨"host1", "1.2.3.4", "linux", "kvm", false, 0, none, none, none, none⟩

/-- A server trace on which `get_vms` runs three top-level attempts: the
home page twice lacks the marker while every re-login succeeds and
verifies, so the code retries twice. -/
def traceC3 : List Resp :=
  [loginOKResp, Resp.page pVerify,
   Resp.page pNoMark,
   loginOKResp, Resp.page pVerify,
   Resp.page pOK,
   Resp.page pNoMark,
   loginOKResp, Resp.page pVerify,
   Resp.page pOK,
   Resp.page pOK]

/-- Stats fetch results for the C6 scenario: VM `101` answers with a
bandwidth block whose `percentbw` is not a float, VM `102` answers with an
empty stats dict. -/
def envC6 : String → Option Stats := fun i =>
  if i = "101" then
    some { state := some ("1"), totalbw := some ("100 GB"), percentbw := some ("abc") }
  else some {}

/-- A row whose first cell shows the KVM icon and whose second cell links to
`control.php?_v=77`. -/
def rowK : Row :=
  ⟨[⟨"<td><img src=../images/kvm.png></td>", "", none⟩,
    ⟨"<td></td>", "", some ⟨"control.php?_v=77", "hostk"⟩⟩,
    ⟨"<td></td>", "9.9.9.9", none⟩,
    ⟨"<td></td>", "linux", none⟩,
    ⟨"<td></td>", "1 GB", none⟩,
    ⟨"<td></td>", "20 GB", none⟩]⟩

/-- The summary `parseRow` extracts from `rowK`. -/
def vmK : VMSummary := ⟨"77", "hostk", "kvm", "9.9.9.9", "linux", "1 GB", "20 GB"⟩

/-- The status-code mapping in the words of the amended claim C2: the string
statuses `"1"`-`"4"` map to success-after-verification, account locked,
invalid credentials and unsupported 2FA respectively; every other status
value — including genuinely numeric JSON statuses and a missing status —
is the unknown-status protocol error. -/
def specLoginStatusMap (status : Option JVal) (markerPresent : Bool) : LoginOutcome :=
  match status with
  | some (JVal.str s) =>
    if s = "1" then
      (if markerPresent then LoginOutcome.loginSuccess else LoginOutcome.verificationFailed)
    else if s = "2" then LoginOutcome.accountLocked
    else if s = "3" then LoginOutcome.invalidCredentials
    else if s = "4" then LoginOutcome.unsupportedAuth
    else LoginOutcome.protocolError
  | _ => LoginOutcome.protocolError

/-- The verification page fetched after a reported login success, with or
without the `'logout.php'` marker. -/
def verifyPage (marker : Bool) : Page := ⟨200, marker, false, none⟩

/-! ## Claim theorems -/

/-- Claim C7 (code bug): `parse_size` is not total.  On inputs whose leading
`[\d.]+` group is not a valid float literal — `"1.2.3"`, `"."` — the
`float(match.group(1))` call raises `ValueError` (modelled as `none`)
instead of returning `0.0`, contradicting the never-raises claim; a
well-formed size still parses, so the failure is specific to these inputs. -/
theorem C7_parse_size_raises :
    parse_size ("1.2.3") = none ∧ parse_size (".") = none ∧
    parse_size ("20 GB") = some (mkRat 21474836480 1) := by decide

/-- Claim C8 (confirmed): the reference equations of `parse_size` —
`"20.31 GB"` is `20.31 * 1024 ^ 3` bytes, the empty string and `"null"` are
`0.0`, a bare `"5"` defaults to GB, and all sixteen casings of the four
units KB, MB, GB, TB carry multipliers `1024`, `1024 ^ 2`, `1024 ^ 3`,
`1024 ^ 4`. -/
theorem C8_parse_size_reference :
    parse_size ("20.31 GB") = some ((2031 / 100 : ℚ) * 1024 ^ 3) ∧
    parse_size ("") = some 0 ∧
    parse_size ("null") = some 0 ∧
    parse_size ("5") = some ((5 : ℚ) * 1024 ^ 3) ∧
    (unitCasings.all fun p =>
      parse_size (String.append ("2 ") p.1) == some (mkRat (2 * p.2) 1)) = true := by
  refine ⟨?_, by decide, by decide, ?_, by decide⟩
  · have h : parse_size ("20.31 GB") = some (mkRat 545192411136 25) := by decide
    rw [h, Rat.mkRat_eq_div]
    norm_num
  · have h : parse_size ("5") = some (mkRat 5368709120 1) := by decide
    rw [h, Rat.mkRat_eq_div]
    norm_num

/-- Claim C5 (code bug): the emitted state is `int(stats['state'])` passed
through verbatim, not clamped to `{0, 1}`: a stats response with
`state = "2"` makes `collect` emit the value `2` for
`racknerd_vm_state`, a third value besides ONLINE (1) and OFFLINE (0),
contradicting the claim and the metric's own help string
`'VM power state (1=online, 0=offline)'`. -/
theorem C5_state_not_binary :
    collectEntries [vmA] (fun _ => some { state := some ("2") }) =
      Except.ok [⟨"host1", "1.2.3.4", "linux", "kvm", true, 2, none, none, none, none⟩] ∧
    (2 : Int) ≠ 0 ∧ (2 : Int) ≠ 1 := by decide

/-- Claim C6 (code bug): `float(stats.get('percentbw', '0'))` is not
guarded: a present but unparsable `percentbw` (`"abc"`) raises an uncaught
`ValueError` that aborts the whole snapshot — including the entry of the
other, perfectly healthy VM — instead of degrading to `0.0`. -/
theorem C6_percent_parse_aborts :
    collectEntries [vmA, vmB] envC6 = Except.error () ∧
    pyFloat ("abc") = none := by decide

/-- Claim C4 (code bug): on reported success (`status == "1"`) the code sets
`self._logged_in = True` before the verification fetch and never clears it
when verification fails: `login` returns the distinct verification-failure
outcome (not invalid credentials), yet the session stays marked
authenticated. -/
theorem C4_verification_leaves_flag_set :
    login ⟨false, [loginOKResp, Resp.page pNoMark]⟩ =
      (LoginOutcome.verificationFailed, ⟨true, []⟩) ∧
    LoginOutcome.verificationFailed ≠ LoginOutcome.invalidCredentials ∧
    (ClientSt.loggedIn ⟨true, []⟩) = true := by decide

/-- Claim C2 counterexample: a JSON response with a truthy `success` and the
genuinely numeric status `1` does not yield success — the Python comparison
`status == "1"` is false for the integer `1`, so the code falls to the
unknown-status branch (protocol error). -/
theorem C2_numeric_status_counterexample :
    login ⟨false, [Resp.loginResp ⟨200, LoginBody.json true (some (JVal.num 1))⟩]⟩ =
      (LoginOutcome.protocolError, ⟨false, []⟩) ∧
    LoginOutcome.protocolError ≠ LoginOutcome.loginSuccess := by decide

/-- Claim C3 counterexample: on `traceC3` — where the home page twice lacks
the authenticated-only marker while every interleaved re-login succeeds —
`get_vms` runs three top-level attempts, i.e. retries twice; the claim's
"at most exactly once" bound (at most two attempts) is violated. -/
theorem C3_two_retries_counterexample :
    (get_vms 5 ⟨false, traceC3⟩).2.2 = 3 ∧ ¬(3 ≤ 2) := by decide

/-- Claim C1 counterexample: when the stats fetch for the only listed VM
fails, its snapshot entry has `available = false` and state 0, but the four
usage triples are absent from the output (no sample is appended to the
bandwidth/disk/memory/vswap families), not present-and-zeroed as claimed. -/
theorem C1_triples_absent_counterexample :
    collectEntries [vmA] (fun _ => none) = Except.ok [entryOffA] ∧
    entryOffA.available = false ∧ entryOffA.state = 0 ∧
    entryOffA.bw ≠ some (0, 0, 0) ∧ entryOffA.bw = none := by decide

/-- Claim C1 (amended): when `collect` emits a snapshot, it has exactly one
entry per listed VM, in order; each VM's entry is computed from that VM's
own stats fetch alone (so other VMs' entries are unaffected by one VM's
failure); and a VM whose stats fetch failed gets `available = false`, state
OFFLINE (0), and no usage triples at all — the bandwidth, disk, memory and
vswap families receive no sample for it (absent, not zeroed). -/
theorem C1_entry_per_vm :
    ∀ (vms : List VMSummary) (env : String → Option Stats) (es : List Entry),
    collectEntries vms env = Except.ok es →
    es.length = vms.length ∧
    ∀ i vm, vms.get? i = some vm →
      ∃ e, es.get? i = some e ∧ entryOf vm (env vm.vm_id) = Except.ok e ∧
        (env vm.vm_id = none →
          e = { hostname := vm.hostname, ip_address := vm.ip_address, os := vm.os,
                vm_type := vm.vm_type, available := false, state := 0,
                bw := none, disk := none, mem := none, vswap := none }) := by
  intro vms
  induction vms with
  | nil =>
    intro env es hok
    simp [collectEntries] at hok
    subst hok
    exact ⟨rfl, by intro i vm hvm; simp at hvm⟩
  | cons vm rest ih =>
    intro env es hok
    simp only [collectEntries] at hok
    cases h1 : entryOf vm (env vm.vm_id) with
    | error e0 => rw [h1] at hok; simp at hok
    | ok e =>
      rw [h1] at hok
      cases h2 : collectEntries rest env with
      | error e0 => rw [h2] at hok; simp at hok
      | ok es' =>
        rw [h2] at hok
        simp at hok
        subst hok
        obtain ⟨hlen, hrest⟩ := ih env es' h2
        refine ⟨by simp [hlen], ?_⟩
        intro i v hv
        cases i with
        | zero =>
          simp at hv
          subst hv
          refine ⟨e, rfl, h1, ?_⟩
          intro hnone
          rw [hnone] at h1
          simp [entryOf] at h1
          exact h1.symm
        | succ j =>
          simp only [List.get?_cons_succ] at hv ⊢
          exact hrest j v hv

/-- Witness for C1: on the singleton list `[vmA]` with a failing stats
fetch, the snapshot's only entry is exactly the offline entry. -/
theorem C1_entry_per_vm_witness :
    ∃ e, ([entryOffA] : List Entry).get? 0 = some e ∧
      entryOf vmA none = Except.ok e ∧
      ((none : Option Stats) = none → e = entryOffA) :=
  (C1_entry_per_vm [vmA] (fun _ => none) [entryOffA] (by decide)).2 0 vmA (by decide)

/-- Claim C2 (amended): with a truthy `success` flag, `login` maps the
STRING status codes exactly as `specLoginStatusMap` does — `"1"` to success
(verification-failure if the marker is absent), `"2"` to account locked,
`"3"` to invalid credentials, `"4"` to unsupported 2FA, everything else
(including numeric statuses and a missing status) to protocol error — and a
non-JSON body is a protocol error; the single consumed login response shows
no status is retried inside `login`. -/
theorem C2_string_status_mapping :
    ∀ (status : Option JVal) (mp l0 : Bool) (rest : List Resp),
    (login ⟨l0, Resp.loginResp ⟨200, LoginBody.json true status⟩ ::
        Resp.page (verifyPage mp) :: rest⟩).1 = specLoginStatusMap status mp ∧
    (login ⟨l0, Resp.loginResp ⟨200, LoginBody.notJson⟩ :: rest⟩).1 =
      LoginOutcome.protocolError := by
  intro status mp l0 rest
  refine ⟨?_, rfl⟩
  rcases status with _ | jv
  · rfl
  · rcases jv with s | n
    · by_cases h1 : s = "1"
      · subst h1; cases mp <;> rfl
      · by_cases h2 : s = "2"
        · subst h2; rfl
        · by_cases h3 : s = "3"
          · subst h3; rfl
          · by_cases h4 : s = "4"
            · subst h4; rfl
            · simp [login, takeResp, specLoginStatusMap, h1, h2, h3, h4]
    · rfl

/-- Claim C3 (amended): whenever the fetched page lacks the marker,
`get_vms` invalidates the session and consults `ensure_logged_in`: if
re-authentication fails it returns the empty list (not an error), but if
re-authentication succeeds it retries the WHOLE operation recursively — so
the number of retries is bounded only by the server's behavior, not by one. -/
theorem C3_retry_recursion :
    ∀ (n : Nat) (st st1 : ClientSt) (p : Page) (st2 : ClientSt),
    ensure_logged_in st = (true, st1) →
    takeResp st1 = (Resp.page p, st2) →
    p.status < 400 →
    p.hasLogout = false →
    (∀ st3, ensure_logged_in { st2 with loggedIn := false } = (false, st3) →
      get_vms (n + 1) st = ([], st3, 1)) ∧
    (∀ st3, ensure_logged_in { st2 with loggedIn := false } = (true, st3) →
      get_vms (n + 1) st =
        ((get_vms n st3).1, (get_vms n st3).2.1, (get_vms n st3).2.2 + 1)) := by
  intro n st st1 p st2 hens htake hstat hmark
  have hnle : ¬ 400 ≤ p.status := Nat.not_le.mpr hstat
  constructor
  · intro st3 hens2
    simp [get_vms, hens, htake, hnle, hmark, hens2]
  · intro st3 hens2
    simp [get_vms, hens, htake, hnle, hmark, hens2]

/-- Witness for C3: a concrete run in which the marker is absent and the
re-login fails, so `get_vms` returns the empty list after a single
attempt. -/
theorem C3_retry_recursion_witness :
    get_vms 1 ⟨true, [Resp.page pOK, Resp.page pNoMark, loginFailResp]⟩ =
      ([], ⟨false, []⟩, 1) :=
  (C3_retry_recursion 0 ⟨true, [Resp.page pOK, Resp.page pNoMark, loginFailResp]⟩
    ⟨true, [Resp.page pNoMark, loginFailResp]⟩ pNoMark ⟨true, [loginFailResp]⟩
    (by decide) (by decide) (by decide) (by decide)).1 ⟨false, []⟩ (by decide)

/-- The appends of the `for row in tbody.find_all('tr')` loop collect
exactly the row-wise parses, in row order. -/
theorem parseVMTable_go (rows : List Row) :
    ∀ acc : List VMSummary,
      rows.foldl (fun acc r =>
        match parseRow r with
        | none => acc
        | some v => acc ++ [v]) acc = acc ++ rows.filterMap parseRow := by
  induction rows with
  | nil => intro acc; simp
  | cons r rest ih =>
    intro acc
    cases h : parseRow r with
    | none => simp [List.foldl_cons, h, ih, List.filterMap_cons]
    | some v => simp [List.foldl_cons, h, ih, List.filterMap_cons]

/-- The table loop is the order-preserving `filterMap` of `parseRow`. -/
theorem parseVMTable_eq_filterMap (rows : List Row) :
    parseVMTable rows = rows.filterMap parseRow := by
  simpa using parseVMTable_go rows []

/-- Claim C9 (confirmed): the inventory loop emits exactly the row-wise
parses in original row order, and a row is dropped precisely when it is
malformed — fewer than 6 cells, no link in the second cell, or a link
`href` without a VM-id query parameter. -/
theorem C9_row_filtering :
    (∀ rows : List Row, parseVMTable rows = rows.filterMap parseRow) ∧
    (∀ r : Row, (parseRow r).isNone = rowMalformed r) := by
  refine ⟨parseVMTable_eq_filterMap, ?_⟩
  intro r
  obtain ⟨cs⟩ := r
  rcases cs with _ | ⟨c0, _ | ⟨c1, _ | ⟨c2, _ | ⟨c3, _ | ⟨c4, _ | ⟨c5, t⟩⟩⟩⟩⟩⟩ <;>
    simp [parseRow, rowMalformed]
  rcases c1 with ⟨h1, t1, l1⟩
  rcases l1 with _ | l
  · simp
  · cases hf : findVmId l.href.data <;> simp [String.toList, hf]

/-- A successfully parsed row has a head cell, and the summary's type is the
`kvm.png` test on that cell's HTML. -/
theorem parseRow_shape (r : Row) (vm : VMSummary) (h : parseRow r = some vm) :
    ∃ c0 t, r.cells = c0 :: t ∧
      vm.vm_type = (if strContains c0.html ("kvm.png") then "kvm" else "openvz") := by
  obtain ⟨cs⟩ := r
  rcases cs with _ | ⟨c0, _ | ⟨c1, _ | ⟨c2, _ | ⟨c3, _ | ⟨c4, _ | ⟨c5, t⟩⟩⟩⟩⟩⟩ <;>
    simp [parseRow] at h
  rcases c1 with ⟨h1, t1, l1⟩
  rcases l1 with _ | l
  · simp at h
  · simp at h
    cases hf : findVmId l.href.data with
    | none => rw [hf] at h; simp at h
    | some vid =>
      rw [hf] at h
      simp at h
      exact ⟨c0, _, rfl, by rw [← h]⟩

/-- Claim C10 (confirmed): every emitted summary is classified as exactly
`kvm` or `openvz`, and it is `kvm` precisely when the row's first cell HTML
contains the substring `kvm.png`. -/
theorem C10_vm_type_classification :
    (∀ (rows : List Row) (vm : VMSummary), vm ∈ parseVMTable rows →
      vm.vm_type = "kvm" ∨ vm.vm_type = "openvz") ∧
    (∀ (r : Row) (vm : VMSummary), parseRow r = some vm →
      ∀ c0 t, r.cells = c0 :: t →
        (vm.vm_type = "kvm" ↔ strContains c0.html ("kvm.png") = true)) := by
  constructor
  · intro rows vm hmem
    rw [parseVMTable_eq_filterMap] at hmem
    obtain ⟨r, _, hr⟩ := List.mem_filterMap.mp hmem
    obtain ⟨c0, t, _, hty⟩ := parseRow_shape r vm hr
    by_cases hk : strContains c0.html ("kvm.png") = true
    · left; rw [hty, if_pos hk]
    · right; rw [hty, if_neg hk]
  · intro r vm h c0 t hc
    obtain ⟨c0b, tb, hcb, hty⟩ := parseRow_shape r vm h
    rw [hc] at hcb
    injection hcb with hcb0 _
    rw [← hcb0] at hty
    by_cases hk : strContains c0.html ("kvm.png") = true
    · rw [hty, if_pos hk]
      simp [hk]
    · rw [hty, if_neg hk]
      constructor
      · intro hco; exact absurd hco (by decide)
      · intro hkk; exact absurd hkk hk

/-- Witness for C10: the summary parsed from the concrete KVM row `rowK` is
classified as one of the two types. -/
theorem C10_vm_type_classification_witness :
    vmK.vm_type = "kvm" ∨ vmK.vm_type = "openvz" :=
  C10_vm_type_classification.1 [rowK] vmK (by decide)

end RackNerd
